import Mathlib

/-!
Shallow embedding of `monkeypatch.py` (aptivate-monkeypatch).

The target's mutable namespace is modelled as an association list from
member names to values, together with the (immutable) namespaces of the
classes in the target's method-resolution order and a printable
description of the target (what `%s` interpolation of the target renders).
Python values relevant to the library are modelled by `PyVal`: `None`,
plain (non-callable) values over a base type `B`, and callables
`List B → Except PyError B`.  Exceptions are modelled by `Except PyError`.

Callables passed around by the library are modelled at their Lean type:
a user callable that receives the original callable as its first argument
(`patch`) has type `PyVal B → List B → Except PyError B`, while user
callables that receive only the call arguments (`after`, `insert`,
`modify_return_value`) have type `List B → Except PyError B`.

The modelled value domain contains no `django.utils.functional.cached_property`
descriptors and no South-memoized callables, so the two special-case
branches of `get_decorator_or_context_object` (the `isinstance(original_function,
cached_property)` rewrite and the `memoize_the_replacement` flag) are
identity on this domain and are noted by comments where they occur in the
source.

`before` in the source does not go through `get_decorator_or_context_object`
and its documented scenario observes a side effect (a log), so it is
embedded separately over effectful callables
`List B → S → Except PyError (B × S)` threading an explicit effect state `S`.
-/

namespace Monkeypatch

/-- Python exceptions raised by the code paths of the library:
`AttributeError` (from `get_dict_attr` / `getattr`), `KeyError`
(the intended collision error of `insert`) and `TypeError`
(raised by `%`-formatting with too few arguments, and by calling a
non-callable value). -/
inductive PyError where
  | attributeError (msg : String)
  | keyError (msg : String)
  | typeError (msg : String)
deriving DecidableEq, Repr

/-- Python `%`-string formatting over a character list: each `%s` consumes
the next argument; running out of arguments raises
`TypeError("not enough arguments for format string")`; leftover arguments
at the end raise `TypeError("not all arguments converted during string
formatting")`.  A non-tuple right operand of `%` is a single argument. -/
def formatPct : List Char → List String → Except PyError String
  | [], [] => .ok ""
  | [], _ :: _ =>
    .error (.typeError "not all arguments converted during string formatting")
  | '%' :: 's' :: rest, a :: as =>
    match formatPct rest as with
    | .error e => .error e
    | .ok r => .ok (a ++ r)
  | '%' :: 's' :: _, [] =>
    .error (.typeError "not enough arguments for format string")
  | c :: rest, as =>
    match formatPct rest as with
    | .error e => .error e
    | .ok r => .ok (String.singleton c ++ r)

/-- String version of `formatPct`. -/
def formatStr (fmt : String) (args : List String) : Except PyError String :=
  formatPct fmt.data args

/-- Lookup in a namespace (association list), first binding wins,
like a Python `dict` keyed by identifier. -/
def lookupIn {V : Type} : List (String × V) → String → Option V
  | [], _ => none
  | (k, v) :: rest, n => if k = n then some v else lookupIn rest n

/-- Overwrite (or append) a binding in a namespace, in place, preserving
the order of the other bindings — the effect of `setattr` / `dict.__setitem__`
on the target's own namespace. -/
def setA {V : Type} : List (String × V) → String → V → List (String × V)
  | [], n, v => [(n, v)]
  | (k, w) :: rest, n, v =>
    if k = n then (n, v) :: rest else (k, w) :: setA rest n v

/-- The state of one target (class, instance or module): its own mutable
namespace `dict`, the namespaces of the classes of its method-resolution
order (never written by the library — `setattr` always targets the exact
target object), and a printable description used in error messages. -/
structure PatchState (V : Type) where
  dict : List (String × V)
  mro : List (List (String × V))
  desc : String

/-- Lookup through the ancestry chain only. -/
def lookupMro {V : Type} : List (List (String × V)) → String → Option V
  | [], _ => none
  | d :: rest, n =>
    match lookupIn d n with
    | some v => some v
    | none => lookupMro rest n

/-- Attribute resolution: the target's own namespace first, then each
ancestor namespace in method-resolution order.  This is the common lookup
chain of both `getattr(obj, name)` and the source's `get_dict_attr`
(which walks `[obj] + mro(obj)` testing `attr in c.__dict__`). -/
def PatchState.lookup {V : Type} (s : PatchState V) (n : String) : Option V :=
  match lookupIn s.dict n with
  | some v => some v
  | none => lookupMro s.mro n

/-- Whether `n in dir(target)`: `dir` lists the target's own names and the
names of every class in its ancestry. -/
def PatchState.dirContains {V : Type} (s : PatchState V) (n : String) : Bool :=
  (s.lookup n).isSome

/-- The effect of `setattr(target, n, v)`: writes into the target's own
namespace, never into an ancestor (creating a shadowing entry if the
name was inherited). -/
def PatchState.setattr {V : Type} (s : PatchState V) (n : String) (v : V) :
    PatchState V :=
  { s with dict := setA s.dict n v }

/-- Source `get_dict_attr(obj, attr)`: resolve, or raise
`AttributeError("No attribute called %s found in class of %s or any
superclass" % (attr, obj))` — here the `%` right operand is a proper
2-tuple, so the interpolation succeeds and is written out directly. -/
def get_dict_attr {V : Type} (s : PatchState V) (attr : String) :
    Except PyError V :=
  match s.lookup attr with
  | some v => .ok v
  | none => .error (.attributeError
      ("No attribute called " ++ attr ++ " found in class of " ++ s.desc ++
       " or any superclass"))

/-- Values in a target's namespace: Python `None`, a plain non-callable
value over the base type `B`, or a callable. -/
inductive PyVal (B : Type) where
  | none
  | base (b : B)
  | fn0 (f : List B → Except PyError B)

/-- Calling a value: callables run; `None` and plain values raise
`TypeError`. -/
def PyVal.call {B : Type} : PyVal B → List B → Except PyError B
  | .fn0 f, args => f args
  | .none, _ => .error (.typeError "NoneType object is not callable")
  | .base _, _ => .error (.typeError "object is not callable")

/-- Invoking `target.name(*args)`: resolve the member, then call it. -/
def callMember {B : Type} (s : PatchState (PyVal B)) (n : String)
    (args : List B) : Except PyError B :=
  match s.lookup n with
  | some v => v.call args
  | Option.none => .error (.attributeError
      (s.desc ++ " object has no attribute " ++ n))

/-- Source class `TemporaryPatcher`: binds the member name, the original
value captured at construction time and the replacement.  (The live
target itself is the `PatchState` threaded alongside.) -/
structure TemporaryPatcher (V : Type) where
  method_name : String
  original_function : V
  replacement_function : V

/-- Source `TemporaryPatcher.__init__`: captures
`getattr(class_or_instance, method_name)` as the original (raising
`AttributeError` when the name resolves nowhere) and applies the patch
immediately with `setattr`. -/
def TemporaryPatcher.make {V : Type} (s : PatchState V) (method_name : String)
    (replacement_function : V) :
    Except PyError (TemporaryPatcher V × PatchState V) :=
  match s.lookup method_name with
  | some orig =>
    .ok ({ method_name := method_name, original_function := orig,
           replacement_function := replacement_function },
         s.setattr method_name replacement_function)
  | none => .error (.attributeError
      (s.desc ++ " object has no attribute " ++ method_name))

/-- Source `TemporaryPatcher.__enter__`: yields no context variable. -/
def TemporaryPatcher.enter {V : Type} (_ : TemporaryPatcher V) : Option V :=
  Option.none

/-- Source `TemporaryPatcher.__exit__(exc_type, exc_val, exc_tb)`: restores
the stored original with `setattr`, ignoring any in-flight exception
(`excInfo = some e` models an exceptional exit, `none` a normal one). -/
def TemporaryPatcher.exit {V : Type} (p : TemporaryPatcher V)
    (excInfo : Option PyError) (s : PatchState V) : PatchState V :=
  s.setattr p.method_name p.original_function

/-- The third argument of the combinators: Python `None` (deferred,
decorator mode), a callable (tested by `hasattr(_, '__call__')`), or a
plain non-callable value. -/
inductive ExtArg (E B : Type) where
  | omitted
  | callable (e : E)
  | value (v : B)

/-- Result of `get_decorator_or_context_object`: in deferred mode a
decorator (source `final_decorator`) that, applied to a user callable in
some later state, installs the composed replacement permanently and
returns the user callable; in immediate mode a `TemporaryPatcher`. -/
inductive GDCOResult (E B : Type) where
  | decorator (d : E → PatchState (PyVal B) → E × PatchState (PyVal B))
  | patcher (p : TemporaryPatcher (PyVal B))

/-- Source `get_decorator_or_context_object`.  Resolves the original via
`get_dict_attr`; the `cached_property` rewrite and the South `memoize`
detection are identity on this value domain (no such values exist in
`PyVal`, so `isinstance(original_function, cached_property)` is false and
`memoize_the_replacement` stays `False`).  Then dispatches on the
replacement argument exactly as the source does, where
`curry(wrapper_function, e, original_function)` is the callable
`fun args => wrapper_function e original_function args`.  The returned
state is the (possibly) mutated target namespace: unchanged in deferred
mode, patched in immediate mode. -/
def get_decorator_or_context_object {B E : Type}
    (s : PatchState (PyVal B)) (method_name : String)
    (wrapper_function : E → PyVal B → List B → Except PyError B)
    (external_replacement_function : ExtArg E B) :
    Except PyError (GDCOResult E B × PatchState (PyVal B)) :=
  match get_dict_attr s method_name with
  | .error e => .error e
  | .ok original_function =>
    -- cached_property branch: vacuous on this value domain.
    -- memoize_the_replacement := False on this value domain.
    match external_replacement_function with
    | .omitted =>
      -- final_decorator: installs curry(wrapper_function, e, original)
      -- permanently and returns the undecorated e unchanged.
      .ok (.decorator (fun e s0 =>
        (e, s0.setattr method_name
          (.fn0 (fun args => wrapper_function e original_function args)))),
        s)
    | .callable e =>
      match TemporaryPatcher.make s method_name
          (.fn0 (fun args => wrapper_function e original_function args)) with
      | .error er => .error er
      | .ok (p, s') => .ok (.patcher p, s')
    | .value v =>
      -- a plain value is installed directly, with no composition
      match TemporaryPatcher.make s method_name (.base v) with
      | .error er => .error er
      | .ok (p, s') => .ok (.patcher p, s')

/-- Source `wrapper_with_after`: run the original, then the after-function
on the same arguments, discarding its value; return the original's value. -/
def wrapper_with_after {B : Type} (external_after_function : List B → Except PyError B)
    (original_function : PyVal B) (args : List B) : Except PyError B :=
  match original_function.call args with
  | .error e => .error e
  | .ok result =>
    match external_after_function args with
    | .error e => .error e
    | .ok _ => .ok result

/-- Source `after`. -/
def after {B : Type} (s : PatchState (PyVal B)) (method_name : String)
    (bare_replacement_function : ExtArg (List B → Except PyError B) B) :
    Except PyError (GDCOResult (List B → Except PyError B) B × PatchState (PyVal B)) :=
  get_decorator_or_context_object s method_name wrapper_with_after
    bare_replacement_function

/-- Source `wrapper_with_patch`: the supplied patch receives the original
(as a first-class value) as its first argument and has full control. -/
def wrapper_with_patch {B : Type}
    (external_patch_function : PyVal B → List B → Except PyError B)
    (original_function : PyVal B) (args : List B) : Except PyError B :=
  external_patch_function original_function args

/-- Source `patch`. -/
def patch {B : Type} (s : PatchState (PyVal B)) (method_name : String)
    (bare_replacement_function : ExtArg (PyVal B → List B → Except PyError B) B) :
    Except PyError (GDCOResult (PyVal B → List B → Except PyError B) B × PatchState (PyVal B)) :=
  get_decorator_or_context_object s method_name wrapper_with_patch
    bare_replacement_function

/-- Source `wrapper_with_insert`: the inserted callable runs alone; the
(placeholder) original is never invoked. -/
def wrapper_with_insert {B : Type}
    (external_patch_function : List B → Except PyError B)
    (original_function : PyVal B) (args : List B) : Except PyError B :=
  external_patch_function args

/-- Source `insert`: refuses (raising) when `method_name in dir(target)` —
but the source writes `KeyError("%s.%s already exists, refusing to
overwrite it" % class_or_instance, method_name)` without parenthesising
the tuple, so `%` gets the single argument `class_or_instance` for two
`%s` slots and the interpolation itself raises `TypeError`.  Otherwise a
placeholder `None` is installed first so the shared resolution machinery
finds something, then dispatch proceeds as usual. -/
def insert {B : Type} (s : PatchState (PyVal B)) (method_name : String)
    (bare_inserted_function : ExtArg (List B → Except PyError B) B) :
    Except PyError (GDCOResult (List B → Except PyError B) B × PatchState (PyVal B)) :=
  if s.dirContains method_name then
    match formatStr "%s.%s already exists, refusing to overwrite it" [s.desc] with
    | .error e => .error e
    | .ok msg => .error (.keyError msg)
  else
    get_decorator_or_context_object (s.setattr method_name .none) method_name
      wrapper_with_insert bare_inserted_function

/-- Source `wrapper_with_modify`: run the original; run the modify-function
on the original's result followed by the call arguments; return the
modify-function's value. -/
def wrapper_with_modify {B : Type}
    (external_modify_function : List B → Except PyError B)
    (original_function : PyVal B) (args : List B) : Except PyError B :=
  match original_function.call args with
  | .error e => .error e
  | .ok result => external_modify_function (result :: args)

/-- Source `modify_return_value`. -/
def modify_return_value {B : Type} (s : PatchState (PyVal B)) (method_name : String)
    (bare_replacement_function : ExtArg (List B → Except PyError B) B) :
    Except PyError (GDCOResult (List B → Except PyError B) B × PatchState (PyVal B)) :=
  get_decorator_or_context_object s method_name wrapper_with_modify
    bare_replacement_function

/-! Effectful model for `before`.  The source's `before` is written
standalone (it does not use `get_decorator_or_context_object`), and its
documented scenario observes a side effect of the before-function, so its
callables thread an explicit effect state `S`. -/

/-- Effectful callables: call arguments and the current effect state in,
a result value and the new effect state out (or an exception). -/
def EffFn (S B : Type) : Type := List B → S → Except PyError (B × S)

/-- Values in a target's namespace, effectful variant. -/
inductive PyValE (S B : Type) where
  | none
  | base (b : B)
  | fn0 (f : EffFn S B)

/-- Calling an effectful value. -/
def PyValE.call {S B : Type} : PyValE S B → List B → S → Except PyError (B × S)
  | .fn0 f, args, st => f args st
  | .none, _, _ => .error (.typeError "NoneType object is not callable")
  | .base _, _, _ => .error (.typeError "object is not callable")

/-- Invoking `target.name(*args)` in the effectful model. -/
def callMemberE {S B : Type} (s : PatchState (PyValE S B)) (n : String)
    (args : List B) (st : S) : Except PyError (B × S) :=
  match s.lookup n with
  | some v => v.call args st
  | Option.none => .error (.attributeError
      (s.desc ++ " object has no attribute " ++ n))

/-- Source `before`: captures `getattr(target, name)` up front (raising
`AttributeError` when absent), and returns the decorator.  The decorator,
given the before-function and the target state at decoration time, builds
`wrapper_with_before` (run the before-function, discard its value, then
run the original on the same arguments), installs it with `setattr`, and
returns `wrapper_with_before` itself — not the undecorated
before-function. -/
def before {S B : Type} (s : PatchState (PyValE S B)) (method_name : String) :
    Except PyError
      (EffFn S B → PatchState (PyValE S B) → EffFn S B × PatchState (PyValE S B)) :=
  match s.lookup method_name with
  | some original_function =>
    .ok (fun before_function s0 =>
      let wrapper_with_before : EffFn S B := fun args st =>
        match before_function args st with
        | .error e => .error e
        | .ok (_, st') => original_function.call args st'
      (wrapper_with_before,
       s0.setattr method_name (.fn0 wrapper_with_before)))
  | Option.none => .error (.attributeError
      (s.desc ++ " object has no attribute " ++ method_name))

/-! Basic lemmas about the namespace operations. -/

theorem lookupIn_setA_self {V : Type} (d : List (String × V)) (n : String) (v : V) :
    lookupIn (setA d n v) n = some v := by
  induction d with
  | nil => simp [setA, lookupIn]
  | cons hd tl ih =>
    obtain ⟨k, w⟩ := hd
    by_cases hk : k = n
    · simp [setA, hk, lookupIn]
    · simp [setA, hk, lookupIn, ih]

theorem setA_setA_same {V : Type} (d : List (String × V)) (n : String) (v : V) :
    setA (setA d n v) n v = setA d n v := by
  induction d with
  | nil => simp [setA]
  | cons hd tl ih =>
    obtain ⟨k, w⟩ := hd
    by_cases hk : k = n
    · simp [setA, hk]
    · simp [setA, hk, ih]

theorem PatchState.lookup_setattr_self {V : Type} (s : PatchState V)
    (n : String) (v : V) : (s.setattr n v).lookup n = some v := by
  simp [PatchState.lookup, PatchState.setattr, lookupIn_setA_self]

theorem PatchState.setattr_setattr_same {V : Type} (s : PatchState V)
    (n : String) (v : V) : (s.setattr n v).setattr n v = s.setattr n v := by
  simp [PatchState.setattr, setA_setA_same]

/-- C2: for every combinator routed through `get_decorator_or_context_object`
in immediate mode with a callable replacement, exiting the returned
`TemporaryPatcher`'s scope (normally, `excInfo = none`, or exceptionally,
`excInfo = some _`) restores the member: afterwards resolving the member
yields exactly the pre-patch original value, so invoking it on any
arguments yields the same result as before the patch. -/
theorem immediate_mode_roundtrip {B E : Type} (s : PatchState (PyVal B))
    (method_name : String)
    (wrapper_function : E → PyVal B → List B → Except PyError B)
    (e : E) {p : TemporaryPatcher (PyVal B)} {s' : PatchState (PyVal B)}
    (excInfo : Option PyError)
    (h : get_decorator_or_context_object s method_name wrapper_function
      (.callable e) = .ok (.patcher p, s')) :
    (p.exit excInfo s').lookup method_name = s.lookup method_name ∧
    ∀ args, callMember (p.exit excInfo s') method_name args =
      callMember s method_name args := by
  cases hl : s.lookup method_name with
  | none =>
    simp [get_decorator_or_context_object, get_dict_attr, hl] at h
  | some orig =>
    simp [get_decorator_or_context_object, get_dict_attr,
      TemporaryPatcher.make, hl] at h
    obtain ⟨hp, hs⟩ := h
    subst hs
    constructor
    · rw [← hp]
      simp [TemporaryPatcher.exit, PatchState.lookup_setattr_self, hl]
    · intro args
      rw [← hp]
      simp [callMember, TemporaryPatcher.exit,
        PatchState.lookup_setattr_self, hl]

/-- C8: restoring twice is safe; the second
`TemporaryPatcher.__exit__` writes the same stored original again, so it
leaves the state exactly as after the first restore — a no-op on
observable behavior. -/
theorem restore_idempotent {V : Type} (p : TemporaryPatcher V)
    (excInfo1 excInfo2 : Option PyError) (s : PatchState V) :
    p.exit excInfo1 (p.exit excInfo2 s) = p.exit excInfo2 s ∧
    (p.exit excInfo1 (p.exit excInfo2 s)).lookup p.method_name =
      some p.original_function := by
  refine ⟨?_, ?_⟩
  · simp [TemporaryPatcher.exit, PatchState.setattr_setattr_same]
  · simp [TemporaryPatcher.exit, PatchState.lookup_setattr_self]

/-- C9: with two temporary patches applied in sequence to the same
(target, member name) pair, the second `TemporaryPatcher` captures the
first patch's replacement (not the true original) as its stored original,
so restoring only the second leaves the first patch's replacement
installed rather than the true pre-patch original. -/
theorem second_patch_captures_replacement {V : Type} (s : PatchState V)
    (method_name : String) (o r1 r2 : V)
    {p1 p2 : TemporaryPatcher V} {s1 s2 : PatchState V}
    (excInfo : Option PyError)
    (ho : s.lookup method_name = some o) (hne : r1 ≠ o)
    (h1 : TemporaryPatcher.make s method_name r1 = .ok (p1, s1))
    (h2 : TemporaryPatcher.make s1 method_name r2 = .ok (p2, s2)) :
    p2.original_function = r1 ∧
    (p2.exit excInfo s2).lookup method_name = some r1 ∧
    (p2.exit excInfo s2).lookup method_name ≠ some o := by
  simp [TemporaryPatcher.make, ho] at h1
  obtain ⟨hp1, hs1⟩ := h1
  subst hs1
  simp [TemporaryPatcher.make, PatchState.lookup_setattr_self] at h2
  obtain ⟨hp2, hs2⟩ := h2
  subst hs2
  rw [← hp2]
  refine ⟨rfl, ?_, ?_⟩
  · simp [TemporaryPatcher.exit, PatchState.lookup_setattr_self]
  · simp [TemporaryPatcher.exit, PatchState.lookup_setattr_self, hne]

/-- C10: using `insert` in immediate mode as a scoped guard does not
remove the fresh name on exit: `insert` installs the placeholder `None`
first, the `TemporaryPatcher` captures that placeholder as its original,
and after the guard exits the name is still present on the target, bound
to the non-callable placeholder (invoking it raises `TypeError`). -/
theorem insert_scoped_exit_leaves_placeholder {B : Type}
    (s : PatchState (PyVal B)) (method_name : String)
    (e : List B → Except PyError B)
    {p : TemporaryPatcher (PyVal B)} {s' : PatchState (PyVal B)}
    (excInfo : Option PyError)
    (ha : s.lookup method_name = Option.none)
    (h : insert s method_name (.callable e) = .ok (.patcher p, s')) :
    p.original_function = PyVal.none ∧
    (p.exit excInfo s').lookup method_name = some PyVal.none ∧
    ∀ args, callMember (p.exit excInfo s') method_name args =
      .error (.typeError "NoneType object is not callable") := by
  have hdir : s.dirContains method_name = false := by
    simp [PatchState.dirContains, ha]
  simp [insert, hdir, get_decorator_or_context_object, get_dict_attr,
    TemporaryPatcher.make, PatchState.lookup_setattr_self] at h
  obtain ⟨hp, hs⟩ := h
  subst hs
  rw [← hp]
  refine ⟨rfl, ?_, ?_⟩
  · simp [TemporaryPatcher.exit, PatchState.lookup_setattr_self]
  · intro args
    simp [callMember, TemporaryPatcher.exit,
      PatchState.lookup_setattr_self, PyVal.call]

/-- C1: patching a callable member in immediate mode with a callable
replacement via `patch` composes them so that invoking the member calls
the user callable with the original callable as its first argument
followed by the call arguments, and the member's value is the user
callable's value. -/
theorem patch_immediate_composes {B : Type} (s : PatchState (PyVal B))
    (method_name : String) (g : List B → Except PyError B)
    (e : PyVal B → List B → Except PyError B)
    {p : TemporaryPatcher (PyVal B)} {s' : PatchState (PyVal B)}
    (ho : s.lookup method_name = some (.fn0 g))
    (h : patch s method_name (.callable e) = .ok (.patcher p, s'))
    (args : List B) :
    callMember s' method_name args = e (PyVal.fn0 g) args := by
  simp [patch, get_decorator_or_context_object, get_dict_attr,
    TemporaryPatcher.make, ho] at h
  obtain ⟨hp, hs⟩ := h
  subst hs
  simp [callMember, PatchState.lookup_setattr_self, PyVal.call,
    wrapper_with_patch]

/-- C6: patching a callable member via `modify_return_value` with a
callable replacement makes invoking the member first run the original on
the call arguments, then run the user callable with the original's result
as its first argument followed by the same call arguments, returning the
user callable's value (and propagating the original's exception if it
raised). -/
theorem modify_return_value_composes {B : Type} (s : PatchState (PyVal B))
    (method_name : String) (g : List B → Except PyError B)
    (e : List B → Except PyError B)
    {p : TemporaryPatcher (PyVal B)} {s' : PatchState (PyVal B)}
    (ho : s.lookup method_name = some (.fn0 g))
    (h : modify_return_value s method_name (.callable e) = .ok (.patcher p, s'))
    (args : List B) :
    callMember s' method_name args =
      (match g args with
       | .error er => .error er
       | .ok result => e (result :: args)) := by
  simp [modify_return_value, get_decorator_or_context_object, get_dict_attr,
    TemporaryPatcher.make, ho] at h
  obtain ⟨hp, hs⟩ := h
  subst hs
  simp [callMember, PatchState.lookup_setattr_self, PyVal.call,
    wrapper_with_modify]

/-- C5: when the member name resolves neither in the target's own
namespace nor in any class of its method-resolution-order ancestry,
resolution fails with an `AttributeError` whose message carries the
member name and the description of the target, the dispatcher propagates
it unchanged, and no new (mutated) state is produced. -/
theorem resolution_not_found_error {B E : Type} (s : PatchState (PyVal B))
    (method_name : String)
    (wrapper_function : E → PyVal B → List B → Except PyError B)
    (ext : ExtArg E B)
    (ha : s.lookup method_name = Option.none) :
    get_dict_attr s method_name = .error (.attributeError
      ("No attribute called " ++ method_name ++ " found in class of " ++
       s.desc ++ " or any superclass")) ∧
    get_decorator_or_context_object s method_name wrapper_function ext =
      .error (.attributeError
        ("No attribute called " ++ method_name ++ " found in class of " ++
         s.desc ++ " or any superclass")) := by
  refine ⟨?_, ?_⟩
  · simp [get_dict_attr, ha]
  · simp [get_decorator_or_context_object, get_dict_attr, ha]

/-- C4: calling `insert` on a member name that already exists anywhere in
the target's namespace or ancestry fails before any installation (the
state is untouched — no `.ok` result carrying a mutated state exists),
but the error actually raised is `TypeError("not enough arguments for
format string")`: the source's `KeyError("%s.%s already exists, refusing
to overwrite it" % class_or_instance, method_name)` lacks the tuple
parentheses around the `%` arguments, so the two-placeholder template is
interpolated with the single value `class_or_instance` and the formatting
itself raises, instead of the intended `KeyError` collision error. -/
theorem insert_collision_raises_format_type_error {B : Type}
    (s : PatchState (PyVal B)) (method_name : String)
    (ext : ExtArg (List B → Except PyError B) B)
    (hc : s.dirContains method_name = true) :
    insert s method_name ext =
      .error (.typeError "not enough arguments for format string") := by
  simp only [insert, hc, if_true]
  rfl

/-- C3 (amended): every combinator that defers through
`get_decorator_or_context_object` (`after`, `patch`, `insert`,
`modify_return_value`) returns, in deferred mode, a decorator that
installs the composed replacement permanently on the target and hands
back the caller's original unwrapped callable unchanged. -/
theorem deferred_mode_installs_and_returns_ext {B E : Type}
    (s : PatchState (PyVal B)) (method_name : String)
    (wrapper_function : E → PyVal B → List B → Except PyError B)
    (orig : PyVal B)
    {d : E → PatchState (PyVal B) → E × PatchState (PyVal B)}
    {s2 : PatchState (PyVal B)}
    (ho : s.lookup method_name = some orig)
    (h : get_decorator_or_context_object s method_name wrapper_function
      .omitted = .ok (.decorator d, s2))
    (e : E) (s0 : PatchState (PyVal B)) :
    d e s0 = (e, s0.setattr method_name
      (.fn0 (fun args => wrapper_function e orig args))) := by
  simp [get_decorator_or_context_object, get_dict_attr, ho] at h
  obtain ⟨hd, hs⟩ := h
  rw [← hd]

/-- C7: applying the decorator returned by `before` to a user callable
makes invoking the member first run the user callable on the call
arguments (its value is discarded, its effect on the state is kept, and
its exception, if any, propagates) and then run the original on the same
arguments, returning the original's value. -/
theorem before_wrapper_behavior {S B : Type} (s : PatchState (PyValE S B))
    (method_name : String) (g : EffFn S B)
    {d : EffFn S B → PatchState (PyValE S B) →
      EffFn S B × PatchState (PyValE S B)}
    (ho : s.lookup method_name = some (.fn0 g))
    (h : before s method_name = .ok d)
    (bf : EffFn S B) (s0 : PatchState (PyValE S B))
    (args : List B) (st : S) :
    callMemberE ((d bf s0).2) method_name args st =
      (match bf args st with
       | .error er => .error er
       | .ok (_, st') => g args st') := by
  simp [before, ho] at h
  rw [← h]
  simp [callMemberE, PatchState.lookup_setattr_self, PyValE.call]

/-! Concrete scenarios instantiating the theorems above. -/

/-- Module function `compute(x) = x * 2` of the C1 scenario. -/
def c1g : List Int → Except PyError Int := fun args =>
  match args with
  | [x] => .ok (x * 2)
  | _ => .error (.typeError "wrong number of arguments")

/-- Replacement `lambda orig, x: orig(x) + 1` of the C1 scenario. -/
def c1e : PyVal Int → List Int → Except PyError Int := fun origv args =>
  match args with
  | [x] =>
    match origv.call [x] with
    | .error er => .error er
    | .ok r => .ok (r + 1)
  | _ => .error (.typeError "wrong number of arguments")

/-- Module `m` with `compute` of the C1 scenario. -/
def c1s : PatchState (PyVal Int) := ⟨[("compute", .fn0 c1g)], [], "module m"⟩

/-- State of module `m` after `patch(m, 'compute', c1e)`. -/
def c1patched : PatchState (PyVal Int) :=
  c1s.setattr "compute" (.fn0 (fun args => wrapper_with_patch c1e (.fn0 c1g) args))

/-- Witness for C1: inside the patch scope, `m.compute(5)` returns `11`. -/
theorem patch_immediate_composes_witness :
    callMember c1patched "compute" [5] = Except.ok 11 :=
  (patch_immediate_composes c1s "compute" c1g c1e rfl rfl [5]).trans rfl

/-- Module function `compute(x) = x * 3` of the C2 scenario. -/
def c2g : List Int → Except PyError Int := fun args =>
  match args with
  | [x] => .ok (x * 3)
  | _ => .error (.typeError "wrong number of arguments")

/-- Replacement that just delegates to the original, for the C2 scenario. -/
def c2e : PyVal Int → List Int → Except PyError Int := fun origv args =>
  origv.call args

/-- Module `m` with `compute` of the C2 scenario. -/
def c2s : PatchState (PyVal Int) := ⟨[("compute", .fn0 c2g)], [], "module m"⟩

/-- State of module `m` while the C2 patch is active. -/
def c2patched : PatchState (PyVal Int) :=
  c2s.setattr "compute" (.fn0 (fun args => wrapper_with_patch c2e (.fn0 c2g) args))

/-- The patch record produced by `patch(m, 'compute', c2e)` in the C2
scenario. -/
def c2p : TemporaryPatcher (PyVal Int) :=
  ⟨"compute", .fn0 c2g, .fn0 (fun args => wrapper_with_patch c2e (.fn0 c2g) args)⟩

/-- Witness for C2: after the guard's scope exits, the member resolves to
the pre-patch original again and `m.compute(7)` returns `21` as before. -/
theorem immediate_mode_roundtrip_witness :
    (c2p.exit Option.none c2patched).lookup "compute" = c2s.lookup "compute" ∧
    callMember (c2p.exit Option.none c2patched) "compute" [7] = Except.ok 21 :=
  ⟨(immediate_mode_roundtrip c2s "compute" wrapper_with_patch c2e
      Option.none rfl).1,
   ((immediate_mode_roundtrip c2s "compute" wrapper_with_patch c2e
      Option.none rfl).2 [7]).trans rfl⟩

/-- Pre-patch member value of the C9 scenario (a plain value suffices:
`TemporaryPatcher` is agnostic in the stored values). -/
def c9s : PatchState Int := ⟨[("m", 0)], [], "module m"⟩

/-- Second patch record of the C9 scenario: it captured the first patch's
replacement `1` as its original. -/
def c9p2 : TemporaryPatcher Int := ⟨"m", 1, 2⟩

/-- State after both patches of the C9 scenario were applied. -/
def c9s2 : PatchState Int := (c9s.setattr "m" 1).setattr "m" 2

/-- Witness for C9: restoring only the second patch leaves the first
patch's replacement `1` installed, not the true original `0`. -/
theorem second_patch_captures_replacement_witness :
    c9p2.original_function = 1 ∧
    (c9p2.exit Option.none c9s2).lookup "m" = some 1 ∧
    (c9p2.exit Option.none c9s2).lookup "m" ≠ some 0 :=
  second_patch_captures_replacement c9s "m" 0 1 2 Option.none rfl
    (by decide) rfl rfl

/-- Inserted function `lambda: 42` of the C10 scenario. -/
def c10e : List Int → Except PyError Int := fun _ => .ok 42

/-- Module `m` without `new_fn` of the C10 scenario. -/
def c10s : PatchState (PyVal Int) := ⟨[], [], "module m"⟩

/-- The patch record produced by `insert(m, 'new_fn', c10e)`: its stored
original is the `None` placeholder. -/
def c10p : TemporaryPatcher (PyVal Int) :=
  ⟨"new_fn", PyVal.none, .fn0 (fun args => wrapper_with_insert c10e PyVal.none args)⟩

/-- State of module `m` while the C10 insert guard is active. -/
def c10s' : PatchState (PyVal Int) :=
  (c10s.setattr "new_fn" PyVal.none).setattr "new_fn"
    (.fn0 (fun args => wrapper_with_insert c10e PyVal.none args))

/-- Witness for C10: after the guard exits, `new_fn` is still present,
bound to the non-callable `None` placeholder. -/
theorem insert_scoped_exit_leaves_placeholder_witness :
    c10p.original_function = PyVal.none ∧
    (c10p.exit Option.none c10s').lookup "new_fn" = some PyVal.none ∧
    callMember (c10p.exit Option.none c10s') "new_fn" [] =
      .error (.typeError "NoneType object is not callable") := by
  obtain ⟨a, b, c⟩ := insert_scoped_exit_leaves_placeholder c10s "new_fn"
    c10e Option.none rfl rfl
  exact ⟨a, b, c []⟩

/-- Target of the C4 scenario: `greet` already exists on the class. -/
def c4s : PatchState (PyVal Int) := ⟨[("greet", .base 1)], [], "class Greeter"⟩

/-- Witness for C4: `insert` on the existing name `greet` raises the
formatting `TypeError`, not the intended `KeyError`. -/
theorem insert_collision_witness :
    insert c4s "greet" (ExtArg.value 5) =
      .error (.typeError "not enough arguments for format string") :=
  insert_collision_raises_format_type_error c4s "greet" (ExtArg.value 5) rfl

/-- Target of the C5 scenario: neither the class nor its ancestor defines
`greet`. -/
def c5s : PatchState (PyVal Int) :=
  ⟨[("other", .base 7)], [[("ancestor_member", .base 1)]], "class Greeter"⟩

/-- Witness for C5: resolving the absent `greet` fails with the
`AttributeError` carrying the member name and the target description. -/
theorem resolution_not_found_error_witness :
    get_decorator_or_context_object c5s "greet" wrapper_with_patch
      (ExtArg.value 3) = .error (.attributeError
        "No attribute called greet found in class of class Greeter or any superclass") :=
  ((resolution_not_found_error c5s "greet" wrapper_with_patch
      (ExtArg.value 3) rfl).2).trans rfl

/-- Method `greet(self, name) = "Hi " + name` of the C6 scenario, found on
the class of the instance. -/
def c6g : List String → Except PyError String := fun args =>
  match args with
  | [_, nm] => .ok ("Hi " ++ nm)
  | _ => .error (.typeError "wrong number of arguments")

/-- ASCII uppercasing, the observable effect of Python's `str.upper` on
the strings of the C6 scenario. -/
def asciiUpper (s : String) : String :=
  ⟨s.data.map (fun c => if c.isLower then Char.ofNat (c.toNat - 32) else c)⟩

/-- Replacement `lambda result, self, name: result.upper()` of the C6
scenario. -/
def c6e : List String → Except PyError String := fun args =>
  match args with
  | result :: _ => .ok (asciiUpper result)
  | [] => .error (.typeError "wrong number of arguments")

/-- Class `Greeter` of the C6 scenario, `greet` defined on the class in
the ancestry chain. -/
def c6s : PatchState (PyVal String) :=
  ⟨[], [[("greet", .fn0 c6g)]], "class Greeter"⟩

/-- State of `Greeter` after `modify_return_value(Greeter, 'greet', c6e)`. -/
def c6patched : PatchState (PyVal String) :=
  c6s.setattr "greet" (.fn0 (fun args => wrapper_with_modify c6e (.fn0 c6g) args))

/-- Witness for C6: `Greeter().greet("Sam")` returns `"HI SAM"` under the
patch. -/
theorem modify_return_value_composes_witness :
    callMember c6patched "greet" ["greeter0", "Sam"] = Except.ok "HI SAM" :=
  (modify_return_value_composes c6s "greet" c6g c6e rfl rfl
    ["greeter0", "Sam"]).trans rfl

/-- Method `greet` of the C3 scenario. -/
def c3g : List Int → Except PyError Int := fun args =>
  match args with
  | [x] => .ok (x + 100)
  | _ => .error (.typeError "wrong number of arguments")

/-- Module `m` of the C3 scenario. -/
def c3s : PatchState (PyVal Int) := ⟨[("m", .fn0 c3g)], [], "module m"⟩

/-- User callable decorated in the C3 scenario. -/
def c3e : List Int → Except PyError Int := fun _ => .ok 0

/-- The decorator handed back by `after(m, 'm')` in deferred mode. -/
def c3d : (List Int → Except PyError Int) → PatchState (PyVal Int) →
    (List Int → Except PyError Int) × PatchState (PyVal Int) :=
  match after c3s "m" .omitted with
  | .ok (.decorator d, _) => d
  | _ => fun e s0 => (e, s0)

/-- Witness for C3 (amended): the deferred-mode decorator of a
`get_decorator_or_context_object` combinator installs the composed
replacement and returns the user callable itself. -/
theorem deferred_mode_installs_and_returns_ext_witness :
    c3d c3e c3s = (c3e, c3s.setattr "m"
      (.fn0 (fun args => wrapper_with_after c3e (.fn0 c3g) args))) :=
  deferred_mode_installs_and_returns_ext c3s "m" wrapper_with_after
    (.fn0 c3g) rfl rfl c3e c3s

/-- Target of the C3 counterexample: module with `m()` returning `1`. -/
def c3cexState : PatchState (PyValE Unit Nat) :=
  ⟨[("m", .fn0 (fun _ st => .ok (1, st)))], [], "module m"⟩

/-- User callable decorated with `before` in the C3 counterexample: it
returns `0`. -/
def c3cexExt : EffFn Unit Nat := fun _ st => .ok (0, st)

/-- What the `before` decorator hands back in the C3 counterexample. -/
def c3cexReturned : EffFn Unit Nat :=
  match before c3cexState "m" with
  | .ok d => (d c3cexExt c3cexState).1
  | .error _ => c3cexExt

/-- Counterexample to C3 as stated: `before` is a combinator used in
deferred mode, yet applying its decorator to the user callable
`c3cexExt` does not return that callable unchanged — it returns
`wrapper_with_before`, which behaves differently (it yields the
original's value `1` where the user callable yields `0`). -/
theorem before_decorator_does_not_return_ext :
    c3cexReturned [] () = Except.ok (1, ()) ∧
    c3cexExt [] () = Except.ok (0, ()) ∧
    c3cexReturned [] () ≠ c3cexExt [] () := by
  refine ⟨rfl, rfl, ?_⟩
  intro h
  rw [show c3cexReturned [] () = Except.ok (1, ()) from rfl,
    show c3cexExt [] () = Except.ok (0, ()) from rfl] at h
  simp at h

/-- Method `greet(self, name) = "Hi " + name` of the C7 scenario,
indifferent to the log state. -/
def c7g : EffFn (List (List String)) String := fun args st =>
  match args with
  | [_, nm] => .ok ("Hi " ++ nm, st)
  | _ => .error (.typeError "wrong number of arguments")

/-- Before-function of the C7 scenario: appends the call arguments to the
log list and returns a dummy value. -/
def c7bf : EffFn (List (List String)) String := fun args st =>
  .ok ("", st ++ [args])

/-- Class `Greeter` of the C7 scenario. -/
def c7s : PatchState (PyValE (List (List String)) String) :=
  ⟨[], [[("greet", .fn0 c7g)]], "class Greeter"⟩

/-- The composed `wrapper_with_before` of the C7 scenario. -/
def c7wrapper : EffFn (List (List String)) String := fun args st =>
  match c7bf args st with
  | .error e => .error e
  | .ok (_, st') => PyValE.call (.fn0 c7g) args st'

/-- State of `Greeter` after decorating with `before(Greeter, 'greet')`. -/
def c7patched : PatchState (PyValE (List (List String)) String) :=
  c7s.setattr "greet" (.fn0 c7wrapper)

/-- Witness for C7: starting from an empty log, `Greeter().greet("Sam")`
returns `"Hi Sam"` and the log gains exactly one entry holding the call
arguments. -/
theorem before_wrapper_behavior_witness :
    callMemberE c7patched "greet" ["greeter0", "Sam"] [] =
      Except.ok ("Hi Sam", [["greeter0", "Sam"]]) :=
  (before_wrapper_behavior c7s "greet" c7g rfl rfl c7bf c7s
    ["greeter0", "Sam"] []).trans rfl

end Monkeypatch
